import Mathlib

/-!
Verification of the `trpl` support crate (src/packages/trpl/src/lib.rs).

The crate exposes four items of interest: `block_on`, `timeout`, `race`
and `Either`.  Futures are modelled denotationally: a future either
becomes ready with a fixed value at a fixed poll cycle (and, as with
fused futures, stays ready from then on), or it is never ready.  The
combinators mirror the poll order of the underlying libraries:
`tokio::time::timeout` polls the wrapped future before checking its
deadline, and `futures::future::select` polls its first argument before
its second at every cycle.
-/

set_option autoImplicit false

namespace Trpl

/-- A denotational model of a Rust future: `resolved t v` is a future that
reports `Poll::Pending` at every poll cycle before `t` and `Poll::Ready v`
from cycle `t` on; `never` is a future that is pending forever. -/
inductive Future (α : Type) where
  | resolved (t : Nat) (v : α)
  | never
  deriving Repr, DecidableEq

/-- Whether the future reports `Poll::Ready` when polled at cycle `n`. -/
def Future.isReadyAt {α : Type} : Future α → Nat → Bool
  | .resolved t _, n => decide (t ≤ n)
  | .never, _ => false

/-- The `Either` enum from lib.rs: a simple choice between two options,
with `Left` and `Right` giving no special meaning to either side. -/
inductive Either (A B : Type) where
  | Left (a : A)
  | Right (b : B)
  deriving Repr, DecidableEq

/-- The structural equality generated by `#[derive(PartialEq)]` on
`Either`: equal variant tags and equal payloads. -/
def Either.eq {A B : Type} [BEq A] [BEq B] : Either A B → Either A B → Bool
  | .Left a, .Left a2 => a == a2
  | .Right b, .Right b2 => b == b2
  | _, _ => false

/-- Model of `tokio::runtime::Runtime`: the runtime-local scheduler state
is abstracted to the number of polls it has performed.  A reused runtime
would carry this state into a later call; a fresh one starts at zero. -/
structure Runtime where
  polls : Nat
  deriving Repr, DecidableEq

/-- `Runtime::new()` on the success path: a runtime with pristine state. -/
def Runtime.new : Runtime :=
  { polls := 0 }

/-- `rt.block_on(future)`: drive the future to completion on runtime `rt`,
returning its output together with the runtime's final state.  Driving a
future that resolves at cycle `t` performs `t + 1` polls; a future that
never resolves makes `block_on` diverge, modelled by `none`. -/
def Runtime.blockOn {α : Type} (rt : Runtime) : Future α → Option α × Runtime
  | .resolved t v => (some v, { polls := rt.polls + t + 1 })
  | .never => (none, rt)

/-- `block_on` from lib.rs: construct a brand-new runtime and drive the
single future to completion on it, discarding the runtime afterwards. -/
def block_on {α : Type} (F : Future α) : Option α :=
  (Runtime.new.blockOn F).1

/-- Two sequential top-level `block_on` calls.  As in the source, each
call constructs its own runtime via `Runtime.new`; the state in which the
first call leaves its runtime is discarded, never handed to the second. -/
def blockOnTwice {α β : Type} (F1 : Future α) (F2 : Future β) :
    (Option α × Runtime) × (Option β × Runtime) :=
  (Runtime.new.blockOn F1, Runtime.new.blockOn F2)

/-- The observable outcome of a call that may abort the process: either a
returned value or a fatal panic with a message. -/
inductive Outcome (α : Type) where
  | value (v : α)
  | panicked (msg : String)
  deriving Repr, DecidableEq

/-- The body of `block_on` with the result of `Runtime::new()` made
explicit: `let rt = Runtime::new().unwrap(); rt.block_on(future)`.
`unwrap` on an `Err` aborts with a panic; there is no error constructor
carrying the construction failure back to the caller as a value. -/
def blockOnChecked {α : Type} (rtRes : Except String Runtime) (F : Future α) :
    Outcome (Option α) :=
  match rtRes with
  | .ok rt => .value (rt.blockOn F).1
  | .error e => .panicked e

/-- `timeout` from lib.rs over `tokio::time::timeout`, with the duration
measured in poll cycles.  At each cycle the wrapped future is polled
first; if it is ready its output is returned as `ok`.  Only then is the
deadline checked, and on elapse the error payload is the configured
`duration` itself (`map_err(|_| duration)`). -/
def timeout {α : Type} (duration : Nat) (F : Future α) : Future (Except Nat α) :=
  match F with
  | .resolved t v =>
      if t ≤ duration then .resolved t (.ok v)
      else .resolved duration (.error duration)
  | .never => .resolved duration (.error duration)

/-- `race` from lib.rs over `futures::future::select`: at every poll cycle
the first future is polled before the second, so the earliest resolver
wins and a tie goes to the first argument. -/
def race {A B : Type} : Future A → Future B → Future (Either A B)
  | .resolved t1 a, .resolved t2 b =>
      if t1 ≤ t2 then .resolved t1 (.Left a) else .resolved t2 (.Right b)
  | .resolved t1 a, .never => .resolved t1 (.Left a)
  | .never, .resolved t2 b => .resolved t2 (.Right b)
  | .never, .never => .never

/-- If the second future is still pending at the cycle where the first
resolves, `race` resolves there to `Left` of the first future's value. -/
theorem race_left_of_not_ready {A B : Type} (t1 : Nat) (a : A) (F2 : Future B)
    (h : F2.isReadyAt t1 = false) :
    race (Future.resolved t1 a) F2 = Future.resolved t1 (Either.Left a) := by
  cases F2 with
  | resolved t2 b =>
      simp only [Future.isReadyAt, decide_eq_false_iff_not, Nat.not_le] at h
      simp [race, Nat.le_of_lt h]
  | never => rfl

/-- If the first future is still pending at the cycle where the second
resolves, `race` resolves there to `Right` of the second future's value. -/
theorem race_right_of_not_ready {A B : Type} (t2 : Nat) (b : B) (F1 : Future A)
    (h : F1.isReadyAt t2 = false) :
    race F1 (Future.resolved t2 b) = Future.resolved t2 (Either.Right b) := by
  cases F1 with
  | resolved t1 a =>
      simp only [Future.isReadyAt, decide_eq_false_iff_not, Nat.not_le] at h
      simp [race, Nat.not_le.mpr h]
  | never => rfl

/-- C1: for every duration `D` and every future `F` that is not yet ready
when the deadline check at cycle `D` fires, `timeout D F` fails with a
payload that is exactly the configured duration `D`. -/
theorem timeout_fails_with_configured_duration {α : Type} (D : Nat) (F : Future α)
    (h : F.isReadyAt D = false) :
    block_on (timeout D F) = some (Except.error D) := by
  cases F with
  | resolved t v =>
      simp only [Future.isReadyAt, decide_eq_false_iff_not, Nat.not_le] at h
      simp [timeout, block_on, Runtime.blockOn, Nat.not_le.mpr h]
  | never => rfl

/-- Witness for C1 at `D = 5` and a future resolving only at cycle 7. -/
theorem timeout_fails_with_configured_duration_witness :
    (Future.resolved 7 (42 : Nat)).isReadyAt 5 = false ∧
    block_on (timeout 5 (Future.resolved 7 (42 : Nat))) = some (Except.error 5) :=
  ⟨by decide, timeout_fails_with_configured_duration 5 (Future.resolved 7 42) (by decide)⟩

/-- C2: for every positive duration `D` and every future resolving to `v`
strictly before `D` elapses, `timeout D F` succeeds with exactly `v`. -/
theorem timeout_succeeds_with_value {α : Type} (D t : Nat) (v : α)
    (hD : 0 < D) (ht : t < D) :
    block_on (timeout D (Future.resolved t v)) = some (Except.ok v) := by
  simp [timeout, block_on, Runtime.blockOn, Nat.le_of_lt ht]

/-- Witness for C2 at `D = 5`, a future resolving to 42 at cycle 2. -/
theorem timeout_succeeds_with_value_witness :
    0 < 5 ∧ 2 < 5 ∧
    block_on (timeout 5 (Future.resolved 2 (42 : Nat))) = some (Except.ok 42) :=
  ⟨by decide, by decide, timeout_succeeds_with_value 5 2 42 (by decide) (by decide)⟩

/-- C3: if the first future resolves to `a` while the second is still
pending, `race` returns `Left a`; symmetrically, if the second resolves to
`b` while the first is still pending, `race` returns `Right b`. -/
theorem race_returns_winner {A B : Type} (t1 t2 : Nat) (a : A) (b : B)
    (F1 : Future A) (F2 : Future B)
    (h2 : F2.isReadyAt t1 = false) (h1 : F1.isReadyAt t2 = false) :
    block_on (race (Future.resolved t1 a) F2) = some (Either.Left a) ∧
    block_on (race F1 (Future.resolved t2 b)) = some (Either.Right b) := by
  constructor
  · rw [race_left_of_not_ready t1 a F2 h2]; rfl
  · rw [race_right_of_not_ready t2 b F1 h1]; rfl

/-- Witness for C3: each winner resolves at cycle 0 against `never`. -/
theorem race_returns_winner_witness :
    (Future.never : Future Nat).isReadyAt 0 = false ∧
    (block_on (race (Future.resolved 0 (1 : Nat)) (Future.never : Future Nat)) =
        some (Either.Left 1) ∧
      block_on (race (Future.never : Future Nat) (Future.resolved 0 (2 : Nat))) =
        some (Either.Right 2)) :=
  ⟨by decide,
    race_returns_winner 0 0 1 2 Future.never Future.never (by decide) (by decide)⟩

/-- C4: when both futures become ready at the same poll cycle, `race`
deterministically favors the first argument and returns `Left`. -/
theorem race_tie_favors_left {A B : Type} (t : Nat) (a : A) (b : B) :
    block_on (race (Future.resolved t a) (Future.resolved t b)) =
      some (Either.Left a) := by
  simp [race, block_on, Runtime.blockOn]

/-- C5: `block_on` returns exactly the value the future produces; in
particular an immediately ready future computing 42 yields 42. -/
theorem block_on_returns_output {α : Type} (t : Nat) (v : α) :
    block_on (Future.resolved t v) = some v ∧
    block_on (Future.resolved 0 (42 : Nat)) = some 42 :=
  ⟨rfl, rfl⟩

/-- C6: each of two sequential `block_on` calls runs on a runtime equal to
`Runtime.new` (fresh, never the other call's final state), and the second
call's observable result does not depend on the first future at all. -/
theorem block_on_fresh_context {α β : Type} (F1 F1' : Future α) (F2 : Future β) :
    (blockOnTwice F1 F2).2 = Runtime.new.blockOn F2 ∧
    (blockOnTwice F1 F2).2 = (blockOnTwice F1' F2).2 ∧
    (blockOnTwice F1 F2).2.1 = block_on F2 :=
  ⟨rfl, rfl, rfl⟩

/-- C7: when runtime construction fails, `block_on` panics with that
failure instead of returning; no returned value carries the error. -/
theorem block_on_fatal_on_runtime_failure {α : Type} (e : String) (F : Future α) :
    blockOnChecked (Except.error e) F = Outcome.panicked e ∧
    ∀ v : Option α, blockOnChecked (Except.error e) F ≠ Outcome.value v := by
  refine ⟨rfl, fun v h => ?_⟩
  simp [blockOnChecked] at h

/-- C8: the derived structural equality on `Either` holds between
`Left x` and `Left x` whenever the payload compares equal to itself, and
fails between `Left x` and `Right x` even when the payload types coincide
and the payloads compare equal. -/
theorem either_structural_equality {α : Type} [BEq α] (x : α)
    (hx : (x == x) = true) :
    Either.eq (Either.Left x : Either α α) (Either.Left x) = true ∧
    Either.eq (Either.Left x : Either α α) (Either.Right x) = false :=
  ⟨hx, rfl⟩

/-- Witness for C8 at `α = Nat`, `x = 3`. -/
theorem either_structural_equality_witness :
    ((3 : Nat) == 3) = true ∧
    (Either.eq (Either.Left (3 : Nat) : Either Nat Nat) (Either.Left 3) = true ∧
      Either.eq (Either.Left (3 : Nat) : Either Nat Nat) (Either.Right 3) = false) :=
  ⟨by decide, either_structural_equality 3 (by decide)⟩

/-- C9: an immediately ready future wrapped in `timeout` succeeds with its
value for every duration, including a zero duration, because the wrapped
future is polled before the deadline is checked. -/
theorem timeout_ready_beats_zero_duration {α : Type} (D : Nat) (v : α) :
    block_on (timeout D (Future.resolved 0 v)) = some (Except.ok v) ∧
    block_on (timeout 0 (Future.resolved 0 v)) = some (Except.ok v) := by
  constructor
  · simp [timeout, block_on, Runtime.blockOn]
  · rfl

/-- C10: the value of a `Left` win of `race` is independent of which
still-pending future it was raced against, and symmetrically for a
`Right` win. -/
theorem race_winner_independent_of_loser {A B : Type} (t1 t2 : Nat) (a : A) (b : B)
    (F2 F2' : Future B) (F1 F1' : Future A)
    (h2 : F2.isReadyAt t1 = false) (h2' : F2'.isReadyAt t1 = false)
    (h1 : F1.isReadyAt t2 = false) (h1' : F1'.isReadyAt t2 = false) :
    block_on (race (Future.resolved t1 a) F2) =
      block_on (race (Future.resolved t1 a) F2') ∧
    block_on (race F1 (Future.resolved t2 b)) =
      block_on (race F1' (Future.resolved t2 b)) := by
  constructor
  · rw [race_left_of_not_ready t1 a F2 h2, race_left_of_not_ready t1 a F2' h2']
  · rw [race_right_of_not_ready t2 b F1 h1, race_right_of_not_ready t2 b F1' h1']

/-- Witness for C10: losers `never` and a cycle-9 resolver, winners at 0. -/
theorem race_winner_independent_of_loser_witness :
    (Future.never : Future Nat).isReadyAt 0 = false ∧
    (Future.resolved 9 (7 : Nat)).isReadyAt 0 = false ∧
    (block_on (race (Future.resolved 0 (1 : Nat)) (Future.never : Future Nat)) =
        block_on (race (Future.resolved 0 (1 : Nat)) (Future.resolved 9 (7 : Nat))) ∧
      block_on (race (Future.never : Future Nat) (Future.resolved 0 (2 : Nat))) =
        block_on (race (Future.resolved 9 (7 : Nat)) (Future.resolved 0 (2 : Nat)))) :=
  ⟨by decide, by decide,
    race_winner_independent_of_loser 0 0 1 2 Future.never (Future.resolved 9 7)
      Future.never (Future.resolved 9 7) (by decide) (by decide) (by decide) (by decide)⟩

end Trpl
